import Mathlib

/-!
Verification of the decision-engine core of the openstack-tenant-cleanup
repository: the item age Tracker (openstacktenantcleanup/tracking.py) and the
prevent-delete detectors (openstacktenantcleaner/detectors.py).

Conventions of the embedding:
* Python datetime values are modelled as Int (seconds since an arbitrary
  epoch); timedelta values as Int (seconds).  The current wall-clock time
  (datetime.now()) is passed explicitly as a parameter named now.
* A Python function that can raise on some input is modelled as returning
  Option; none models the raised exception.
* The repository files models.py, managers.py and common.py are not part of
  the provided sources; the definitions taken from them are marked
  "Modelled from the spec:" and follow the specification text.
-/

namespace OpenstackTenantCleanup

/-- Modelled from the spec: concrete OpenStack image
(models.py, absent from the sources).  Attributes per spec section 3:
identifier, name, the protected flag, and an optional creation timestamp
(present iff the type carries the Timestamped capability). -/
structure OpenstackImage where
  identifier : String
  name : String
  «protected» : Bool
  created_at : Option Int
deriving Repr, DecidableEq

/-- Modelled from the spec: concrete OpenStack key pair
(models.py, absent from the sources). -/
structure OpenstackKeypair where
  identifier : String
  name : String
  created_at : Option Int
deriving Repr, DecidableEq

/-- Modelled from the spec: concrete OpenStack instance
(models.py, absent from the sources); exposes the image identifier reference
and the key-pair name it uses. -/
structure OpenstackInstance where
  identifier : String
  name : String
  image : String
  key_name : String
  created_at : Option Int
deriving Repr, DecidableEq

/-- Modelled from the spec: a deletable OpenStack item is one of the concrete
variants (spec section 3). -/
inductive OpenstackItem where
  | image (i : OpenstackImage)
  | keypair (k : OpenstackKeypair)
  | «instance» (i : OpenstackInstance)
deriving Repr, DecidableEq

/-- Tag for the concrete Python type of an item. -/
inductive ItemType where
  | image
  | keypair
  | «instance»
deriving Repr, DecidableEq

def OpenstackItem.itemType : OpenstackItem → ItemType
  | .image _ => .image
  | .keypair _ => .keypair
  | .«instance» _ => .«instance»

def OpenstackItem.identifier : OpenstackItem → String
  | .image i => i.identifier
  | .keypair k => k.identifier
  | .«instance» i => i.identifier

def OpenstackItem.name : OpenstackItem → String
  | .image i => i.name
  | .keypair k => k.name
  | .«instance» i => i.name

/-- Modelled from the spec: the optional Timestamped capability of an item.
The Python code tests isinstance(item, Timestamped) and reads
item.created_at; here the capability is carried as an optional field. -/
def OpenstackItem.created_at : OpenstackItem → Option Int
  | .image i => i.created_at
  | .keypair k => k.created_at
  | .«instance» i => i.created_at

/-- Modelled from the spec: item equality/identity is by concrete type plus
identifier (spec section 3: two items are equal iff same concrete type and
same identifier).  Tracker records are keyed by this pair. -/
def OpenstackItem.key (it : OpenstackItem) : ItemType × String :=
  (it.itemType, it.identifier)

/-! ## Tracker (openstacktenantcleanup/tracking.py) -/

/-- Modelled from the spec: a Tracker backend state, a durable map from item
identity to its first-observed timestamp, with at most one record per
(item type, identifier) pair.  Records are held as an association list from
item key to the created timestamp. -/
structure Tracker where
  records : List ((ItemType × String) × Int)
deriving Repr, DecidableEq

/-- Association-list lookup used by the Tracker backend model. -/
def lookupKey (k : ItemType × String) : List ((ItemType × String) × Int) → Option Int
  | [] => none
  | (k2, v) :: rest => if k2 = k then some v else lookupKey k rest

/-- Modelled from the spec: Tracker.get_age — absent when the item has no
record, otherwise now minus the stored created timestamp (spec section 4.1:
"Age = now − created"). -/
def Tracker.get_age (t : Tracker) (now : Int) (item : OpenstackItem) : Option Int :=
  (lookupKey item.key t.records).map (fun created => now - created)

/-- Modelled from the spec: the backend primitive Tracker._register, which
stores a record for the item with the given created time. -/
def Tracker._register (t : Tracker) (item : OpenstackItem) (created : Int) : Tracker :=
  ⟨(item.key, created) :: t.records⟩

/-- Modelled from the spec: the backend primitive Tracker._unregister, which
deletes the record(s) held for the item. -/
def Tracker._unregister (t : Tracker) (item : OpenstackItem) : Tracker :=
  ⟨t.records.filter (fun r => decide (r.1 ≠ item.key))⟩

/-- Embedding of the body of Tracker.register (tracking.py lines 50-54) for
one item of the iteration: if get_age is currently absent, register the item
with created = item.created_at when the item is Timestamped, else the current
wall-clock time. -/
def Tracker.register1 (t : Tracker) (now : Int) (item : OpenstackItem) : Tracker :=
  if (t.get_age now item).isNone then
    t._register item (item.created_at.getD now)
  else t

/-- Embedding of Tracker.register (tracking.py lines 45-54) applied to a
collection of items: the loop processes the items in order. -/
def Tracker.register (t : Tracker) (now : Int) (items : List OpenstackItem) : Tracker :=
  items.foldl (fun acc it => acc.register1 now it) t

/-- Embedding of the body of Tracker.unregister (tracking.py lines 56-64) for
one item of the iteration: unconditionally delegate to the backend delete. -/
def Tracker.unregister1 (t : Tracker) (item : OpenstackItem) : Tracker :=
  t._unregister item

/-- Embedding of Tracker.unregister applied to a collection of items. -/
def Tracker.unregister (t : Tracker) (items : List OpenstackItem) : Tracker :=
  items.foldl (fun acc it => acc.unregister1 it) t

/-! ## Detectors (openstacktenantcleaner/detectors.py) -/

/-- Modelled from the spec: OpenStack credentials (models.py, absent from the
sources).  The only use made of credentials in this layer is the read-only
cloud collaborator query "list all instances", so the model carries the
collection of instances that the cloud would report for these credentials. -/
structure OpenstackCredentials where
  instances : List OpenstackInstance
deriving Repr, DecidableEq

/-- Modelled from the spec: OpenstackInstanceManager.get_all (managers.py,
absent from the sources) enumerates all instances visible with the given
credentials. -/
def OpenstackInstanceManager.get_all (credentials : OpenstackCredentials) :
    List OpenstackInstance :=
  credentials.instances

/-- Modelled from the spec: create_human_identifier (common.py, absent from
the sources) renders a deterministic human-readable identity of an item,
naming it for reason strings. -/
def create_human_identifier (i : OpenstackInstance) : String :=
  i.name ++ " (id: " ++ i.identifier ++ ")"

/-- Embedding of detectors.py line 43 (and 63): the subset of the
already-marked-for-deletion set whose entries have concrete Python type
OpenstackInstance. -/
def instancesMarkedForDeletion (already_marked_for_deletion : List OpenstackItem) :
    List OpenstackInstance :=
  already_marked_for_deletion.filterMap fun it =>
    match it with
    | .«instance» i => some i
    | _ => none

/-- Membership of an instance in a collection of instances under the
item-equality contract of spec section 3 (same concrete type and same
identifier). -/
def instanceInList (i : OpenstackInstance) (l : List OpenstackInstance) : Bool :=
  l.any fun j => decide (j.identifier = i.identifier)

/-- Embedding of prevent_delete_protected_image_detector
(detectors.py lines 16-27). -/
def prevent_delete_protected_image_detector (image : OpenstackImage)
    (_openstack_credentials : OpenstackCredentials) (_tracker : Tracker)
    (_already_marked_for_deletion : List OpenstackItem) : Bool × String :=
  (image.«protected»,
   "Image is " ++ (if image.«protected» then "" else "not ")
     ++ "marked on OpenStack as protected")

/-- Embedding of prevent_delete_image_in_use_detector
(detectors.py lines 30-48): the loop over all instances returning on the
first instance that references the image and is not already marked for
deletion is expressed with List.find?. -/
def prevent_delete_image_in_use_detector (image : OpenstackImage)
    (openstack_credentials : OpenstackCredentials) (_tracker : Tracker)
    (already_marked_for_deletion : List OpenstackItem) : Bool × String :=
  let instances := OpenstackInstanceManager.get_all openstack_credentials
  let instances_marked_for_deletion := instancesMarkedForDeletion already_marked_for_deletion
  match instances.find? (fun i =>
      decide (i.image = image.identifier) && !(instanceInList i instances_marked_for_deletion)) with
  | some i =>
      (true, "Image cannot be deleted because it is in use by the instance "
        ++ create_human_identifier i)
  | none => (false, "No instances are using the image")

/-- Embedding of prevent_delete_key_pair_in_use_detector
(detectors.py lines 51-67). -/
def prevent_delete_key_pair_in_use_detector (key_pair : OpenstackKeypair)
    (openstack_credentials : OpenstackCredentials) (_tracker : Tracker)
    (already_marked_for_deletion : List OpenstackItem) : Bool × String :=
  let instances := OpenstackInstanceManager.get_all openstack_credentials
  let instances_marked_for_deletion := instancesMarkedForDeletion already_marked_for_deletion
  match instances.find? (fun i =>
      decide (i.key_name = key_pair.name) && !(instanceInList i instances_marked_for_deletion)) with
  | some i => (true, "Key pair in use by instance " ++ create_human_identifier i)
  | none => (false, "No instances are using the key pair")

/-- Embedding of the detector produced by create_delete_if_older_than_detector
(detectors.py lines 70-82).  The Python body compares
tracker.get_age(item) <= age; when get_age returns None that comparison
raises a TypeError (None is not ordered against a timedelta), which the
embedding models as none.  The factory itself performs no validation of the
age parameter. -/
def create_delete_if_older_than_detector (age : Int) (item : OpenstackItem)
    (_credentials : OpenstackCredentials) (now : Int) (tracker : Tracker)
    (_already_marked_for_deletion : List OpenstackItem) : Option (Bool × String) :=
  match tracker.get_age now item with
  | none => none
  | some item_age =>
      some (decide (item_age ≤ age),
        "Item age: " ++ toString item_age ++ " - "
          ++ (if item_age ≤ age then "not " else "") ++ "older than: " ++ toString age)


/-! ## Regular expressions (model of the compiled patterns of the re module) -/

/-- Modelled from the spec: abstract syntax of the compiled regular
expressions handed to create_exclude_detector (the configuration surface
compiles pattern strings before the factory ever sees them). -/
inductive Regex where
  | emptyset
  | epsilon
  | char (c : Char)
  | dot
  | concat (r1 r2 : Regex)
  | alt (r1 r2 : Regex)
  | star (r : Regex)
deriving Repr, DecidableEq

/-- Nullability: whether the pattern accepts the empty string. -/
def Regex.nullable : Regex → Bool
  | .emptyset => false
  | .epsilon => true
  | .char _ => false
  | .dot => false
  | .concat r1 r2 => r1.nullable && r2.nullable
  | .alt r1 r2 => r1.nullable || r2.nullable
  | .star _ => true

/-- Brzozowski derivative of a pattern by one character. -/
def Regex.deriv : Regex → Char → Regex
  | .emptyset, _ => .emptyset
  | .epsilon, _ => .emptyset
  | .char c, a => if c = a then .epsilon else .emptyset
  | .dot, _ => .epsilon
  | .concat r1 r2, a =>
      if r1.nullable then .alt (.concat (r1.deriv a) r2) (r2.deriv a)
      else .concat (r1.deriv a) r2
  | .alt r1 r2, a => .alt (r1.deriv a) (r2.deriv a)
  | .star r, a => .concat (r.deriv a) (.star r)

/-- Modelled from the spec: Pattern.fullmatch of the re module — the match
must consume the whole string (anchored start-to-end), computed here by
iterated derivatives. -/
def Regex.fullmatch (r : Regex) (s : String) : Bool :=
  (s.data.foldl Regex.deriv r).nullable

/-- Pattern for a literal sequence of characters. -/
def Regex.literal (s : List Char) : Regex :=
  s.foldr (fun c r => .concat (.char c) r) .epsilon

/-- Language of a pattern: Matches r s holds iff the whole character list s
is in the language denoted by r. -/
inductive Matches : Regex → List Char → Prop where
  | epsilon : Matches .epsilon []
  | char (c : Char) : Matches (.char c) [c]
  | dot (c : Char) : Matches .dot [c]
  | concat {r1 r2 : Regex} {s1 s2 : List Char} :
      Matches r1 s1 → Matches r2 s2 → Matches (.concat r1 r2) (s1 ++ s2)
  | altL {r1 r2 : Regex} {s : List Char} : Matches r1 s → Matches (.alt r1 r2) s
  | altR {r1 r2 : Regex} {s : List Char} : Matches r2 s → Matches (.alt r1 r2) s
  | starNil {r : Regex} : Matches (.star r) []
  | starCons {r : Regex} {s1 s2 : List Char} :
      Matches r s1 → Matches (.star r) s2 → Matches (.star r) (s1 ++ s2)

/-- Modelled from the spec: a compiled pattern object as handed to the
exclude factory, carrying its source text (the pattern attribute read for
reason strings) and its compiled form. -/
structure CompiledPattern where
  pattern : String
  re : Regex
deriving Repr, DecidableEq

/-- Embedding of the detector produced by create_exclude_detector
(detectors.py lines 85-98): the loop returning on the first configured
pattern that fully matches the item's name is expressed with List.find?. -/
def create_exclude_detector (excludes : List CompiledPattern) (item : OpenstackItem)
    (_credentials : OpenstackCredentials) (_tracker : Tracker)
    (_already_marked_for_deletion : List OpenstackItem) : Bool × String :=
  match excludes.find? (fun exclude => exclude.re.fullmatch item.name) with
  | some exclude => (true, "Exclude matched: " ++ exclude.pattern)
  | none =>
      (false, "Excludes not matched: "
        ++ toString (excludes.map (fun exclude => exclude.pattern)))

/-! ## Detector dispatch and state threading -/

/-- Tagged representation of the configured detectors, each variant carrying
the parameters its factory closed over (spec section 9 recommends exactly
this modelling of the detector closures). -/
inductive DetectorKind where
  | protectedImage
  | imageInUse
  | keypairInUse
  | olderThan (age : Int)
  | exclude (excludes : List CompiledPattern)
deriving Repr, DecidableEq

/-- Dispatch of a configured detector on an item; none models a raised
exception (a typed detector applied to the wrong concrete item type, or the
age detector applied to an untracked item). -/
def evalDetector (k : DetectorKind) (item : OpenstackItem) (c : OpenstackCredentials)
    (now : Int) (t : Tracker) (m : List OpenstackItem) : Option (Bool × String) :=
  match k, item with
  | .protectedImage, .image i => some (prevent_delete_protected_image_detector i c t m)
  | .protectedImage, _ => none
  | .imageInUse, .image i => some (prevent_delete_image_in_use_detector i c t m)
  | .imageInUse, _ => none
  | .keypairInUse, .keypair kp => some (prevent_delete_key_pair_in_use_detector kp c t m)
  | .keypairInUse, _ => none
  | .olderThan age, it => create_delete_if_older_than_detector age it c now t m
  | .exclude excludes, it => some (create_exclude_detector excludes it c t m)

/-- State-passing form of a detector call: Python hands the tracker and the
already-marked set to the detector by reference, so the embedding of a call
returns, next to the detector's result, the tracker and the set as the call
leaves them.  The detector bodies of detectors.py contain no write to
either, so the call leaves both exactly as it received them. -/
def runDetector (k : DetectorKind) (item : OpenstackItem) (c : OpenstackCredentials)
    (now : Int) (t : Tracker) (m : List OpenstackItem) :
    Option (Bool × String) × Tracker × List OpenstackItem :=
  (evalDetector k item c now t m, t, m)

/-! ### Basic tracker lemmas -/

theorem lookupKey_cons_self (k : ItemType × String) (v : Int)
    (l : List ((ItemType × String) × Int)) :
    lookupKey k ((k, v) :: l) = some v := by
  simp [lookupKey]

theorem get_age_register1_isSome (t : Tracker) (now now2 : Int) (item : OpenstackItem) :
    ((t.register1 now item).get_age now2 item).isSome = true ∨ t.register1 now item = t := by
  by_cases h : (t.get_age now item).isNone
  · left
    simp only [Tracker.register1, h, if_true]
    simp [Tracker.get_age, Tracker._register, lookupKey_cons_self]
  · right
    simp [Tracker.register1, h]

theorem get_age_isSome_of_register1 (t : Tracker) (now now2 : Int) (item : OpenstackItem)
    (h : ((t.get_age now2 item)).isSome = true) :
    ((t.register1 now item).get_age now2 item).isSome = true := by
  rcases get_age_register1_isSome t now now2 item with h1 | h1
  · exact h1
  · rw [h1]; exact h

theorem get_age_isSome_iff_lookup (t : Tracker) (now : Int) (item : OpenstackItem) :
    (t.get_age now item).isSome = (lookupKey item.key t.records).isSome := by
  simp [Tracker.get_age]

theorem lookupKey_filter_ne (k : ItemType × String) (l : List ((ItemType × String) × Int)) :
    lookupKey k (l.filter (fun r => decide (r.1 ≠ k))) = none := by
  induction l with
  | nil => rfl
  | cons hd tl ih =>
    by_cases h : hd.1 = k
    · simpa [List.filter, h] using ih
    · simpa [List.filter, h, lookupKey] using ih

theorem filter_ne_eq_self_of_lookup_none (k : ItemType × String)
    (l : List ((ItemType × String) × Int)) (h : lookupKey k l = none) :
    l.filter (fun r => decide (r.1 ≠ k)) = l := by
  induction l with
  | nil => rfl
  | cons hd tl ih =>
    by_cases hk : hd.1 = k
    · exfalso
      rcases hd with ⟨k2, v⟩
      simp only [lookupKey] at h
      rw [if_pos hk] at h
      exact Option.some_ne_none v h
    · rcases hd with ⟨k2, v⟩
      simp only [lookupKey] at h
      rw [if_neg hk] at h
      rw [List.filter_cons, if_pos (decide_eq_true hk), ih h]

theorem get_age_none_iff (t : Tracker) (now : Int) (item : OpenstackItem) :
    t.get_age now item = none ↔ lookupKey item.key t.records = none := by
  simp [Tracker.get_age, Option.map_eq_none']

theorem register1_of_age_present (t : Tracker) (now : Int) (item : OpenstackItem)
    (h : t.get_age now item ≠ none) : t.register1 now item = t := by
  have hneg : ¬ ((t.get_age now item).isNone = true) := by
    rw [Option.isNone_iff_eq_none]
    exact h
  unfold Tracker.register1
  rw [if_neg hneg]

theorem register1_of_age_none (t : Tracker) (now : Int) (item : OpenstackItem)
    (h : t.get_age now item = none) :
    t.register1 now item = t._register item (item.created_at.getD now) := by
  have hpos : (t.get_age now item).isNone = true := by
    rw [Option.isNone_iff_eq_none]
    exact h
  unfold Tracker.register1
  rw [if_pos hpos]

/-- C1: registering an item whose age is already present leaves the tracker
state, records included, entirely unchanged (a silent no-op that never resets
the stored created timestamp); consequently registering an item twice, at any
pair of times, yields exactly the tracker state of registering it once. -/
theorem register_already_tracked_is_noop (t : Tracker) (now : Int) (item : OpenstackItem) :
    (t.get_age now item ≠ none → t.register1 now item = t) ∧
    ∀ now2 : Int, (t.register1 now item).register1 now2 item = t.register1 now item := by
  refine ⟨fun h => register1_of_age_present t now item h, fun now2 => ?_⟩
  by_cases hn : t.get_age now item = none
  · rw [register1_of_age_none t now item hn]
    apply register1_of_age_present
    simp [Tracker.get_age, Tracker._register, lookupKey_cons_self]
  · rw [register1_of_age_present t now item hn]
    apply register1_of_age_present
    intro hc
    rw [get_age_none_iff] at hn hc
    exact hn hc

/-- C1 witness: on a concrete tracker already holding the item, register is a
no-op and a second registration changes nothing. -/
theorem register_already_tracked_is_noop_witness :
    (Tracker.mk [((ItemType.image, "img1"), 100)]).register1 500
        (OpenstackItem.image ⟨"img1", "base", false, none⟩)
      = Tracker.mk [((ItemType.image, "img1"), 100)] :=
  (register_already_tracked_is_noop (Tracker.mk [((ItemType.image, "img1"), 100)]) 500
    (OpenstackItem.image ⟨"img1", "base", false, none⟩)).1 (by decide)

/-- C5: registering an item whose age is absent creates exactly one new
record for it, keyed by the item's identity, whose created timestamp is the
item's own creation timestamp when the item carries one (Timestamped
capability) and the current wall-clock time otherwise; and registering a
collection processes its items one by one with the same single-item step. -/
theorem register_untracked_creates_record (t : Tracker) (now : Int) (item : OpenstackItem) :
    (t.get_age now item = none →
      (t.register1 now item).records = (item.key, item.created_at.getD now) :: t.records ∧
      (t.register1 now item).get_age now item = some (now - item.created_at.getD now)) ∧
    ∀ rest : List OpenstackItem,
      t.register now (item :: rest) = (t.register1 now item).register now rest := by
  refine ⟨fun h => ?_, fun rest => rfl⟩
  rw [register1_of_age_none t now item h]
  exact ⟨rfl, by simp [Tracker.get_age, Tracker._register, lookupKey_cons_self]⟩

/-- C5 witness: registering an untracked Timestamped image stores its own
creation timestamp, and registering an untracked key pair without a creation
timestamp stores the current wall-clock time. -/
theorem register_untracked_creates_record_witness :
    ((Tracker.mk []).register1 500 (OpenstackItem.image ⟨"img1", "base", false, some 120⟩)).records
      = [((ItemType.image, "img1"), 120)] ∧
    ((Tracker.mk []).register1 500 (OpenstackItem.keypair ⟨"kp1", "mykey", none⟩)).records
      = [((ItemType.keypair, "kp1"), 500)] :=
  ⟨((register_untracked_creates_record (Tracker.mk []) 500
      (OpenstackItem.image ⟨"img1", "base", false, some 120⟩)).1 rfl).1,
   ((register_untracked_creates_record (Tracker.mk []) 500
      (OpenstackItem.keypair ⟨"kp1", "mykey", none⟩)).1 rfl).1⟩

/-- C6: after unregistering an item its age is absent, and unregistering an
item that has no record leaves the tracker unchanged (a no-op that cannot
fail). -/
theorem unregister_clears_record (t : Tracker) (now : Int) (item : OpenstackItem) :
    (t.unregister1 item).get_age now item = none ∧
    (t.get_age now item = none → t.unregister1 item = t) := by
  constructor
  · rw [get_age_none_iff]
    exact lookupKey_filter_ne item.key t.records
  · intro h
    rw [get_age_none_iff] at h
    show Tracker.mk (t.records.filter (fun r => decide (r.1 ≠ item.key))) = t
    rw [filter_ne_eq_self_of_lookup_none item.key t.records h]

/-- C6 witness: unregistering an absent key pair from a concrete one-record
tracker changes nothing. -/
theorem unregister_clears_record_witness :
    (Tracker.mk [((ItemType.image, "img1"), 100)]).unregister1
        (OpenstackItem.keypair ⟨"kp1", "mykey", none⟩)
      = Tracker.mk [((ItemType.image, "img1"), 100)] :=
  (unregister_clears_record (Tracker.mk [((ItemType.image, "img1"), 100)]) 0
    (OpenstackItem.keypair ⟨"kp1", "mykey", none⟩)).2 rfl

/-- C9: the protected-flag detector returns prevent iff the image's
protected field is set, with the reason "Image is marked on OpenStack as
protected" when it is and "Image is not marked on OpenStack as protected"
when it is not; its result is the same for every choice of credentials,
tracker and already-marked set, so none of them is consulted. -/
theorem protected_image_detector_spec (image : OpenstackImage)
    (c : OpenstackCredentials) (t : Tracker) (m : List OpenstackItem) :
    prevent_delete_protected_image_detector image c t m
      = (image.«protected»,
         if image.«protected» then "Image is marked on OpenStack as protected"
         else "Image is not marked on OpenStack as protected") ∧
    ∀ (c2 : OpenstackCredentials) (t2 : Tracker) (m2 : List OpenstackItem),
      prevent_delete_protected_image_detector image c t m
        = prevent_delete_protected_image_detector image c2 t2 m2 := by
  refine ⟨?_, fun c2 t2 m2 => rfl⟩
  by_cases h : image.«protected» <;>
    simp [prevent_delete_protected_image_detector, h]

/-- C2: when the tracker holds an age for the item, the age-threshold
detector prevents deletion exactly when that age is less than or equal to
the threshold (inclusive boundary), so an item exactly at the threshold is
protected and only strictly older items are eligible for deletion. -/
theorem older_than_detector_boundary (age : Int) (item : OpenstackItem)
    (c : OpenstackCredentials) (now : Int) (t : Tracker) (m : List OpenstackItem)
    (a : Int) (h : t.get_age now item = some a) :
    create_delete_if_older_than_detector age item c now t m
      = some (decide (a ≤ age),
          "Item age: " ++ toString a ++ " - " ++ (if a ≤ age then "not " else "")
            ++ "older than: " ++ toString age) := by
  unfold create_delete_if_older_than_detector
  rw [h]

/-- C2 witness: with a threshold of 7 days (604800 seconds) an item
registered exactly 7 days ago is prevented, while one registered 7 days and
one second ago is not. -/
theorem older_than_detector_boundary_witness :
    (create_delete_if_older_than_detector 604800
        (OpenstackItem.image ⟨"img1", "base", false, none⟩) ⟨[]⟩ 604800
        (Tracker.mk [((ItemType.image, "img1"), 0)]) []).map Prod.fst = some true ∧
    (create_delete_if_older_than_detector 604800
        (OpenstackItem.image ⟨"img1", "base", false, none⟩) ⟨[]⟩ 604801
        (Tracker.mk [((ItemType.image, "img1"), 0)]) []).map Prod.fst = some false := by
  constructor
  · rw [older_than_detector_boundary 604800
      (OpenstackItem.image ⟨"img1", "base", false, none⟩) ⟨[]⟩ 604800
      (Tracker.mk [((ItemType.image, "img1"), 0)]) [] 604800 (by decide)]
    decide
  · rw [older_than_detector_boundary 604800
      (OpenstackItem.image ⟨"img1", "base", false, none⟩) ⟨[]⟩ 604801
      (Tracker.mk [((ItemType.image, "img1"), 0)]) [] 604801 (by decide)]
    decide

/-- C8: when the tracker holds no age for the item (never tracked, or
unregistered), the age-threshold detector does not produce a
(prevent, reason) result: the comparison of the absent age against the
threshold is undefined and the evaluation fails. -/
theorem older_than_detector_absent_age_fails (age : Int) (item : OpenstackItem)
    (c : OpenstackCredentials) (now : Int) (t : Tracker) (m : List OpenstackItem)
    (h : t.get_age now item = none) :
    create_delete_if_older_than_detector age item c now t m = none := by
  unfold create_delete_if_older_than_detector
  rw [h]

/-- C8 witness: against an empty tracker the age detector fails to produce a
result. -/
theorem older_than_detector_absent_age_fails_witness :
    create_delete_if_older_than_detector 604800
        (OpenstackItem.image ⟨"img1", "base", false, none⟩) ⟨[]⟩ 500
        (Tracker.mk []) [] = none :=
  older_than_detector_absent_age_fails 604800
    (OpenstackItem.image ⟨"img1", "base", false, none⟩) ⟨[]⟩ 500
    (Tracker.mk []) [] rfl

/-- C7 counterexample: the age-threshold factory performs no validation at
all, so at the concrete nonpositive threshold of minus one second nothing is
raised at construction time — the factory returns a working detector, whose
evaluation on a tracked item also succeeds and simply never prevents. -/
theorem older_than_factory_no_error_counterexample :
    create_delete_if_older_than_detector (-1)
        (OpenstackItem.image ⟨"img1", "base", false, none⟩) ⟨[]⟩ 604800
        (Tracker.mk [((ItemType.image, "img1"), 0)]) []
      = some (false, "Item age: 604800 - older than: -1") := by
  decide

/-- C7 amended: the factories perform no configuration validation; a
negative or zero threshold is accepted silently at construction time and the
produced detector evaluates normally, preventing exactly the items whose
tracked age is at most that threshold. -/
theorem older_than_factory_accepts_nonpositive (age : Int) (_hage : age ≤ 0)
    (item : OpenstackItem) (c : OpenstackCredentials) (now : Int) (t : Tracker)
    (m : List OpenstackItem) (a : Int) (h : t.get_age now item = some a) :
    create_delete_if_older_than_detector age item c now t m
      = some (decide (a ≤ age),
          "Item age: " ++ toString a ++ " - " ++ (if a ≤ age then "not " else "")
            ++ "older than: " ++ toString age) := by
  unfold create_delete_if_older_than_detector
  rw [h]

/-- C7 witness: the amended statement applied at the concrete threshold of
minus one second. -/
theorem older_than_factory_accepts_nonpositive_witness :
    create_delete_if_older_than_detector (-1)
        (OpenstackItem.keypair ⟨"kp1", "mykey", none⟩) ⟨[]⟩ 250
        (Tracker.mk [((ItemType.keypair, "kp1"), 50)]) []
      = some (false, "Item age: 200 - older than: -1") := by
  rw [older_than_factory_accepts_nonpositive (-1) (by decide)
    (OpenstackItem.keypair ⟨"kp1", "mykey", none⟩) ⟨[]⟩ 250
    (Tracker.mk [((ItemType.keypair, "kp1"), 50)]) [] 200 (by decide)]
  decide

/-! ### Regular-expression lemmas -/

theorem matches_emptyset_inv {s : List Char} (h : Matches .emptyset s) : False := by
  cases h

theorem matches_epsilon_inv {s : List Char} (h : Matches .epsilon s) : s = [] := by
  cases h; rfl

theorem matches_char_inv {c : Char} {s : List Char} (h : Matches (.char c) s) : s = [c] := by
  cases h; rfl

theorem matches_dot_inv {s : List Char} (h : Matches .dot s) : ∃ c, s = [c] := by
  cases h; exact ⟨_, rfl⟩

theorem matches_concat_inv {r1 r2 : Regex} {s : List Char}
    (h : Matches (.concat r1 r2) s) :
    ∃ s1 s2, s = s1 ++ s2 ∧ Matches r1 s1 ∧ Matches r2 s2 := by
  cases h with
  | concat h1 h2 => exact ⟨_, _, rfl, h1, h2⟩

theorem matches_alt_inv {r1 r2 : Regex} {s : List Char}
    (h : Matches (.alt r1 r2) s) : Matches r1 s ∨ Matches r2 s := by
  cases h with
  | altL h1 => exact Or.inl h1
  | altR h2 => exact Or.inr h2

theorem nullable_sound : ∀ (r : Regex), r.nullable = true → Matches r [] := by
  intro r
  induction r with
  | emptyset => intro h; simp [Regex.nullable] at h
  | epsilon => intro _; exact Matches.epsilon
  | char c => intro h; simp [Regex.nullable] at h
  | dot => intro h; simp [Regex.nullable] at h
  | concat r1 r2 ih1 ih2 =>
      intro h
      simp only [Regex.nullable, Bool.and_eq_true] at h
      have h2 := Matches.concat (ih1 h.1) (ih2 h.2)
      simpa using h2
  | alt r1 r2 ih1 ih2 =>
      intro h
      simp only [Regex.nullable, Bool.or_eq_true] at h
      rcases h with h | h
      · exact Matches.altL (ih1 h)
      · exact Matches.altR (ih2 h)
  | star r _ => intro _; exact Matches.starNil

theorem nullable_complete : ∀ (r : Regex), Matches r [] → r.nullable = true := by
  intro r
  induction r with
  | emptyset => intro h; exact absurd h matches_emptyset_inv
  | epsilon => intro _; rfl
  | char c => intro h; exact absurd (matches_char_inv h) (by simp)
  | dot => intro h; rcases matches_dot_inv h with ⟨c, hc⟩; exact absurd hc (by simp)
  | concat r1 r2 ih1 ih2 =>
      intro h
      rcases matches_concat_inv h with ⟨s1, s2, heq, h1, h2⟩
      rcases List.append_eq_nil.mp heq.symm with ⟨e1, e2⟩
      subst e1; subst e2
      simp [Regex.nullable, ih1 h1, ih2 h2]
  | alt r1 r2 ih1 ih2 =>
      intro h
      rcases matches_alt_inv h with h | h
      · simp [Regex.nullable, ih1 h]
      · simp [Regex.nullable, ih2 h]
  | star r _ => intro _; rfl

theorem deriv_sound : ∀ (r : Regex) (a : Char) (s : List Char),
    Matches (r.deriv a) s → Matches r (a :: s) := by
  intro r
  induction r with
  | emptyset => intro a s h; exact absurd h matches_emptyset_inv
  | epsilon => intro a s h; exact absurd h matches_emptyset_inv
  | char c =>
      intro a s h
      simp only [Regex.deriv] at h
      by_cases hc : c = a
      · rw [if_pos hc] at h
        rw [matches_epsilon_inv h, hc]
        exact Matches.char a
      · rw [if_neg hc] at h
        exact absurd h matches_emptyset_inv
  | dot =>
      intro a s h
      simp only [Regex.deriv] at h
      rw [matches_epsilon_inv h]
      exact Matches.dot a
  | concat r1 r2 ih1 ih2 =>
      intro a s h
      simp only [Regex.deriv] at h
      by_cases hn : r1.nullable
      · rw [if_pos hn] at h
        rcases matches_alt_inv h with h | h
        · rcases matches_concat_inv h with ⟨s1, s2, heq, h1, h2⟩
          subst heq
          have hm := Matches.concat (ih1 a s1 h1) h2
          simpa using hm
        · have h0 : Matches r1 [] := nullable_sound r1 hn
          have hm := Matches.concat h0 (ih2 a s h)
          simpa using hm
      · rw [if_neg hn] at h
        rcases matches_concat_inv h with ⟨s1, s2, heq, h1, h2⟩
        subst heq
        have hm := Matches.concat (ih1 a s1 h1) h2
        simpa using hm
  | alt r1 r2 ih1 ih2 =>
      intro a s h
      simp only [Regex.deriv] at h
      rcases matches_alt_inv h with h | h
      · exact Matches.altL (ih1 a s h)
      · exact Matches.altR (ih2 a s h)
  | star r ih =>
      intro a s h
      simp only [Regex.deriv] at h
      rcases matches_concat_inv h with ⟨s1, s2, heq, h1, h2⟩
      subst heq
      have hm := Matches.starCons (ih a s1 h1) h2
      simpa using hm

theorem star_deriv_aux {r0 : Regex} {sAll : List Char} (h : Matches (.star r0) sAll)
    (hcomp : ∀ (a : Char) (s1 : List Char), Matches r0 (a :: s1) → Matches (r0.deriv a) s1) :
    ∀ (a : Char) (s : List Char), sAll = a :: s →
      Matches (.concat (r0.deriv a) (.star r0)) s := by
  generalize hr : Regex.star r0 = rr at h
  induction h with
  | epsilon => exact absurd hr (by simp)
  | char c => exact absurd hr (by simp)
  | dot c => exact absurd hr (by simp)
  | concat h1 h2 => exact absurd hr (by simp)
  | altL h1 => exact absurd hr (by simp)
  | altR h2 => exact absurd hr (by simp)
  | starNil => intro a s hs; exact absurd hs (by simp)
  | starCons h1 h2 ih1 ih2 =>
      rename_i r s1 s2
      intro a s hs
      have hr2 : r = r0 := by injection hr.symm
      subst hr2
      cases s1 with
      | nil =>
          simp only [List.nil_append] at hs
          exact ih2 hr a s hs
      | cons c s1tl =>
          simp only [List.cons_append, List.cons.injEq] at hs
          rcases hs with ⟨hca, hrest⟩
          subst hca
          subst hrest
          exact Matches.concat (hcomp _ s1tl h1) h2

theorem deriv_complete : ∀ (r : Regex) (a : Char) (s : List Char),
    Matches r (a :: s) → Matches (r.deriv a) s := by
  intro r
  induction r with
  | emptyset => intro a s h; exact absurd h matches_emptyset_inv
  | epsilon => intro a s h; exact absurd (matches_epsilon_inv h) (by simp)
  | char c =>
      intro a s h
      have hc := matches_char_inv h
      simp only [List.cons.injEq] at hc
      rcases hc with ⟨hac, hs⟩
      subst hac
      subst hs
      simp only [Regex.deriv, if_pos rfl]
      exact Matches.epsilon
  | dot =>
      intro a s h
      rcases matches_dot_inv h with ⟨c, hc⟩
      simp only [List.cons.injEq] at hc
      rcases hc with ⟨_, hs⟩
      subst hs
      exact Matches.epsilon
  | concat r1 r2 ih1 ih2 =>
      intro a s h
      rcases matches_concat_inv h with ⟨s1, s2, heq, h1, h2⟩
      simp only [Regex.deriv]
      cases s1 with
      | nil =>
          simp only [List.nil_append] at heq
          subst heq
          have hn : r1.nullable = true := nullable_complete r1 h1
          rw [if_pos hn]
          exact Matches.altR (ih2 a s h2)
      | cons c s1tl =>
          simp only [List.cons_append, List.cons.injEq] at heq
          rcases heq with ⟨hac, hrest⟩
          subst hac
          subst hrest
          have hd1 := ih1 _ s1tl h1
          by_cases hn : r1.nullable
          · rw [if_pos hn]
            exact Matches.altL (Matches.concat hd1 h2)
          · rw [if_neg hn]
            exact Matches.concat hd1 h2
  | alt r1 r2 ih1 ih2 =>
      intro a s h
      simp only [Regex.deriv]
      rcases matches_alt_inv h with h | h
      · exact Matches.altL (ih1 a s h)
      · exact Matches.altR (ih2 a s h)
  | star r ih =>
      intro a s h
      simp only [Regex.deriv]
      exact star_deriv_aux h (fun a2 s2 hm => ih a2 s2 hm) a s rfl

theorem deriv_iff (r : Regex) (a : Char) (s : List Char) :
    Matches (r.deriv a) s ↔ Matches r (a :: s) :=
  ⟨deriv_sound r a s, deriv_complete r a s⟩

theorem foldl_deriv_nullable : ∀ (s : List Char) (r : Regex),
    (s.foldl Regex.deriv r).nullable = true ↔ Matches r s := by
  intro s
  induction s with
  | nil =>
      intro r
      exact ⟨nullable_sound r, nullable_complete r⟩
  | cons a stl ih =>
      intro r
      rw [List.foldl_cons]
      rw [ih (r.deriv a)]
      exact deriv_iff r a stl

theorem fullmatch_iff (r : Regex) (s : String) :
    r.fullmatch s = true ↔ Matches r s.data :=
  foldl_deriv_nullable s.data r


/-- C3: the image-in-use detector prevents deletion exactly when some
instance listed by the instance manager references the image's identifier
and is not among the instance-typed entries of the already-marked set; when
it does not prevent, its reason is exactly "No instances are using the
image", and when it prevents, its reason names a referencing unmarked
instance through its human identifier. -/
theorem image_in_use_detector_spec (image : OpenstackImage)
    (c : OpenstackCredentials) (t : Tracker) (m : List OpenstackItem) :
    ((prevent_delete_image_in_use_detector image c t m).1 = true ↔
      ∃ i ∈ OpenstackInstanceManager.get_all c, i.image = image.identifier ∧
        instanceInList i (instancesMarkedForDeletion m) = false) ∧
    ((prevent_delete_image_in_use_detector image c t m).1 = false →
      prevent_delete_image_in_use_detector image c t m
        = (false, "No instances are using the image")) ∧
    ((prevent_delete_image_in_use_detector image c t m).1 = true →
      ∃ i ∈ OpenstackInstanceManager.get_all c, i.image = image.identifier ∧
        instanceInList i (instancesMarkedForDeletion m) = false ∧
        prevent_delete_image_in_use_detector image c t m
          = (true, "Image cannot be deleted because it is in use by the instance "
              ++ create_human_identifier i)) := by
  simp only [prevent_delete_image_in_use_detector]
  cases hf : (OpenstackInstanceManager.get_all c).find? (fun i =>
      decide (i.image = image.identifier)
        && !(instanceInList i (instancesMarkedForDeletion m))) with
  | none =>
      refine ⟨⟨fun h => absurd h (by simp), fun h => ?_⟩, fun _ => rfl, fun h => absurd h (by simp)⟩
      obtain ⟨i, hi, him, hm⟩ := h
      have hno := List.find?_eq_none.mp hf i hi
      simp [him, hm] at hno
  | some i =>
      have hp := List.find?_some hf
      have hmem := List.mem_of_find?_eq_some hf
      simp only [Bool.and_eq_true, decide_eq_true_eq, Bool.not_eq_true'] at hp
      refine ⟨⟨fun _ => ⟨i, hmem, hp.1, hp.2⟩, fun _ => rfl⟩,
        fun h => absurd h (by simp), fun _ => ⟨i, hmem, hp.1, hp.2, rfl⟩⟩

/-- C3 witness: image imgX is referenced by instance inst1; with inst1
already in the marked set the detector reports no instances using the image,
and with an empty marked set it prevents, naming inst1. -/
theorem image_in_use_detector_spec_witness :
    prevent_delete_image_in_use_detector ⟨"imgX", "base", false, none⟩
        ⟨[⟨"inst1", "vm1", "imgX", "key1", none⟩]⟩ (Tracker.mk [])
        [OpenstackItem.«instance» ⟨"inst1", "vm1", "imgX", "key1", none⟩]
      = (false, "No instances are using the image") ∧
    prevent_delete_image_in_use_detector ⟨"imgX", "base", false, none⟩
        ⟨[⟨"inst1", "vm1", "imgX", "key1", none⟩]⟩ (Tracker.mk []) []
      = (true, "Image cannot be deleted because it is in use by the instance "
          ++ create_human_identifier ⟨"inst1", "vm1", "imgX", "key1", none⟩) := by
  constructor
  · exact (image_in_use_detector_spec ⟨"imgX", "base", false, none⟩
      ⟨[⟨"inst1", "vm1", "imgX", "key1", none⟩]⟩ (Tracker.mk [])
      [OpenstackItem.«instance» ⟨"inst1", "vm1", "imgX", "key1", none⟩]).2.1 (by decide)
  · have h := (image_in_use_detector_spec ⟨"imgX", "base", false, none⟩
      ⟨[⟨"inst1", "vm1", "imgX", "key1", none⟩]⟩ (Tracker.mk []) []).2.2 (by decide)
    obtain ⟨i, hi, _, _, heq⟩ := h
    have hi1 : i = ⟨"inst1", "vm1", "imgX", "key1", none⟩ := by
      simpa [OpenstackInstanceManager.get_all] using hi
    rw [hi1] at heq
    exact heq

/-- C4: the exclude detector prevents deletion exactly when the item's name,
as a whole character sequence, is in the language of some configured pattern
(anchored full-string matching, never substring search); concretely the
pattern "tmp-.*" accepts the whole of "tmp-foo" but not "xtmp-foox", so the
detector prevents an item named "tmp-foo" and passes one named "xtmp-foox". -/
theorem exclude_detector_anchored_fullmatch :
    (∀ (excludes : List CompiledPattern) (item : OpenstackItem)
        (c : OpenstackCredentials) (t : Tracker) (m : List OpenstackItem),
      ((create_exclude_detector excludes item c t m).1 = true ↔
        ∃ e ∈ excludes, Matches e.re item.name.data)) ∧
    Matches (Regex.concat (Regex.literal "tmp-".data) (Regex.star Regex.dot))
      "tmp-foo".data ∧
    ¬ Matches (Regex.concat (Regex.literal "tmp-".data) (Regex.star Regex.dot))
      "xtmp-foox".data ∧
    (create_exclude_detector
      [⟨"tmp-.*", Regex.concat (Regex.literal "tmp-".data) (Regex.star Regex.dot)⟩]
      (OpenstackItem.image ⟨"i1", "tmp-foo", false, none⟩) ⟨[]⟩ (Tracker.mk []) []).1
      = true ∧
    (create_exclude_detector
      [⟨"tmp-.*", Regex.concat (Regex.literal "tmp-".data) (Regex.star Regex.dot)⟩]
      (OpenstackItem.image ⟨"i1", "xtmp-foox", false, none⟩) ⟨[]⟩ (Tracker.mk []) []).1
      = false := by
  refine ⟨fun excludes item c t m => ?_, ?_, ?_, by decide, by decide⟩
  · simp only [create_exclude_detector]
    cases hf : excludes.find? (fun exclude => exclude.re.fullmatch item.name) with
    | none =>
        constructor
        · intro h; exact absurd h (by simp)
        · intro h
          obtain ⟨e, he, hm⟩ := h
          have hno := List.find?_eq_none.mp hf e he
          exact absurd ((fullmatch_iff e.re item.name).mpr hm) hno
    | some e =>
        constructor
        · intro _
          have hfm : e.re.fullmatch item.name = true := by
            have h2 := List.find?_some hf
            simpa using h2
          exact ⟨e, List.mem_of_find?_eq_some hf,
            (fullmatch_iff e.re item.name).mp hfm⟩
        · intro _; rfl
  · exact (fullmatch_iff _ _).mp (by decide)
  · intro hm
    have h := (fullmatch_iff
      (Regex.concat (Regex.literal "tmp-".data) (Regex.star Regex.dot))
      "xtmp-foox").mpr hm
    exact absurd h (by decide)

/-- C4 witness: the anchored-match characterisation instantiated on a
concrete pattern list and item name. -/
theorem exclude_detector_anchored_fullmatch_witness :
    (create_exclude_detector
      [⟨"tmp-.*", Regex.concat (Regex.literal "tmp-".data) (Regex.star Regex.dot)⟩]
      (OpenstackItem.keypair ⟨"kp1", "tmp-bar", none⟩) ⟨[]⟩ (Tracker.mk []) []).1
      = true :=
  (exclude_detector_anchored_fullmatch.1
      [⟨"tmp-.*", Regex.concat (Regex.literal "tmp-".data) (Regex.star Regex.dot)⟩]
      (OpenstackItem.keypair ⟨"kp1", "tmp-bar", none⟩) ⟨[]⟩ (Tracker.mk []) []).mpr
    ⟨⟨"tmp-.*", Regex.concat (Regex.literal "tmp-".data) (Regex.star Regex.dot)⟩,
     List.mem_singleton.mpr rfl, (fullmatch_iff _ _).mp (by decide)⟩

/-- C10: a call to any built-in detector (protected-flag, image-in-use,
keypair-in-use, age-threshold or exclude-pattern), on any input, hands back
the tracker and the already-marked-for-deletion set exactly as it received
them: detectors only read that state and return a (prevent, reason) pair. -/
theorem detectors_leave_state_unchanged (k : DetectorKind) (item : OpenstackItem)
    (c : OpenstackCredentials) (now : Int) (t : Tracker) (m : List OpenstackItem) :
    (runDetector k item c now t m).2.1 = t ∧ (runDetector k item c now t m).2.2 = m :=
  ⟨rfl, rfl⟩

end OpenstackTenantCleanup
